import Mathlib

/-!
Verification development for the webnav evaluation harness.

The Python sources under `webnav/app` are shallowly embedded below:
`judge.py` (outcome judging, trace matching, task-spec validation),
`white_agent_client.py` (action validation), `action_executor.py`
(the pure dispatch/default-field logic), and the evaluation loop of
`controller.py` (`TaskController.run_evaluation`).

The Python `re` module is external to the repository; it is abstracted by
two parameters threaded through the judge definitions:
`rv pat` models "`re.compile(pat)` succeeds" and `rf pat text` models the
truthiness of `re.search(pat, text)` for a pattern that compiles.
`_check_regex_match`'s `try/except re.error` is then the `if rv pat` test.
-/

namespace WebNav

/-- Python `sub in hay` on lists of characters: `sub` occurs contiguously. -/
def isSubstrOfList (sub : List Char) : List Char → Bool
  | [] => sub.isEmpty
  | c :: rest => sub.isPrefixOf (c :: rest) || isSubstrOfList sub rest

/-- Python `sub in hay` for strings (contiguous substring test). -/
def pyIn (sub hay : String) : Bool :=
  isSubstrOfList sub.toList hay.toList

/-- Python `str.isspace` characters relevant to `str.split()`. -/
def pyIsSpace (c : Char) : Bool :=
  c == ' ' || c == '\t' || c == '\n' || c == '\r' || c == '\x0b' || c == '\x0c'

/-- Python `"".join(s.split())`: drop every whitespace character. -/
def stripWs (s : String) : String :=
  ⟨s.toList.filter (fun c => !pyIsSpace c)⟩

/-- Python `s.startswith(pre)` (code-point based, like Python slicing). -/
def pyStartsWith (s pre : String) : Bool :=
  pre.toList.isPrefixOf s.toList

/-- Python `s[1:]` (code-point based). -/
def pyDrop1 (s : String) : String :=
  ⟨s.toList.drop 1⟩

/-- Python `s.split(' ', 1)` on a char list: the part before the first space,
and `some` rest when a space occurs. -/
def breakAtSpace : List Char → List Char × Option (List Char)
  | [] => ([], none)
  | c :: t =>
      if c == ' ' then ([], some t)
      else
        let p := breakAtSpace t
        (c :: p.1, p.2)

/-! ### Data model (`models.py`) -/

/-- Structure `TaskExpected` from `models.py`: the legacy `{css, regex}` pair. -/
structure TaskExpected where
  css : String
  regex : String
deriving DecidableEq, Repr

/-- Structure `TaskLimits` from `models.py`. -/
structure TaskLimits where
  max_steps : Int
  timeout_sec : Int
deriving DecidableEq, Repr

/-- One gold/executed action as consumed by `compute_trace_match`
(`Dict[str, Any]` restricted to the keys that function reads;
`none` models an absent key). -/
structure TraceAction where
  type : Option String := none
  selector : Option String := none
  delta_y : Option Int := none
  step : Option Nat := none
deriving DecidableEq, Repr

/-- The `success_criteria` dict of a `TaskSpec`: the three recognized keys,
plus a count of unrecognized keys (they matter only for the dict's Python
truthiness in `judge_final_success` and `validate_task_spec`). -/
structure SuccessCriteria where
  url_contains : Option String := none
  text_present : Option String := none
  selector_present : Option String := none
  other_keys : Nat := 0
deriving DecidableEq, Repr

/-- The dict has no keys at all, i.e. it is Python-falsy. -/
def SuccessCriteria.isEmpty (c : SuccessCriteria) : Bool :=
  c.url_contains.isNone && c.text_present.isNone && c.selector_present.isNone
    && c.other_keys == 0

/-- Structure `TaskSpec` from `models.py`, restricted to the fields the judge and the
validator read. -/
structure TaskSpec where
  id : String
  start_url : String
  instruction : String
  expected : Option TaskExpected := none
  limits : TaskLimits := ⟨20, 60⟩
  gold_actions : Option (List TraceAction) := none
  success_criteria : Option SuccessCriteria := none
deriving DecidableEq, Repr

/-! ### `judge.py` -/

/-- Embedding of `_check_css_selector_exists(css_selector, html_content)` from `judge.py`.
`rv`/`rf` abstract `re.search` (the `try/except` returning `False` on
`re.error` is the `rv` test; short-circuit of Python `and` is preserved by
`&&`). -/
def check_css_selector_exists (rv : String → Bool) (rf : String → String → Bool)
    (css_selector html_content : String) : Bool :=
  if pyStartsWith css_selector "#" then
    let element_id := pyDrop1 css_selector
    if pyIn "." element_id then
      let parts := breakAtSpace element_id.toList
      let element_id' : String := ⟨parts.1⟩
      let class_part : String := ⟨(parts.2).getD []⟩
      let id_pattern := "id=\"" ++ element_id' ++ "\""
      if pyStartsWith class_part "." then
        let class_name := pyDrop1 class_part
        let class_pattern := "class=\"[^\"]*" ++ class_name ++ "[^\"]*\""
        pyIn id_pattern html_content
          && (if rv class_pattern then rf class_pattern html_content else false)
      else
        pyIn id_pattern html_content
    else
      pyIn ("id=\"" ++ element_id ++ "\"") html_content
  else if pyStartsWith css_selector "." then
    let class_name := pyDrop1 css_selector
    let class_pattern := "class=\"[^\"]*" ++ class_name ++ "[^\"]*\""
    if rv class_pattern then rf class_pattern html_content else false
  else
    pyIn css_selector html_content

/-- Embedding of `_check_regex_match(pattern, text)` from `judge.py`:
`re.search` guarded by `try/except re.error`. -/
def check_regex_match (rv : String → Bool) (rf : String → String → Bool)
    (pattern text : String) : Bool :=
  if rv pattern then rf pattern text else false

/-- Model of `urlparse(url).netloc` for the URL shapes this repository feeds it:
the text after `"://"` up to the next `/`, `?` or `#`; empty when the URL
has no `//` authority part. -/
def urlNetloc (url : String) : String :=
  let rec afterScheme : List Char → Option (List Char)
    | ':' :: '/' :: '/' :: rest => some rest
    | _ :: rest => afterScheme rest
    | [] => none
  match afterScheme url.toList with
  | some rest => ⟨rest.takeWhile (fun c => c ≠ '/' && c ≠ '?' && c ≠ '#')⟩
  | none => ""

/-- Embedding of `_check_domain_match(start_url, final_url)` from `judge.py`. -/
def check_domain_match (start_url final_url : String) : Bool :=
  let start_domain := urlNetloc start_url
  let final_domain := urlNetloc final_url
  if pyIn "localhost" start_domain || pyIn "127.0.0.1" start_domain then
    pyIn "localhost" final_domain || pyIn "127.0.0.1" final_domain
  else
    start_domain == final_domain

/-- The three sequential criteria checks inside `judge_final_success`
(each present key must pass; early `return False` is `&&`). -/
def judgeCriteria (rv : String → Bool) (rf : String → String → Bool)
    (c : SuccessCriteria) (final_html final_url : String) : Bool :=
  (match c.url_contains with
   | some s => pyIn s final_url
   | none => true)
  && (match c.text_present with
      | some pat => check_regex_match rv rf pat final_html
      | none => true)
  && (match c.selector_present with
      | some sel => check_css_selector_exists rv rf sel final_html
      | none => true)

/-- The `if task_spec.expected:` fallback at the end of
`judge_final_success`. -/
def judgeLegacyFallback (rv : String → Bool) (rf : String → String → Bool)
    (spec : TaskSpec) (final_html : String) : Bool :=
  match spec.expected with
  | some e => check_css_selector_exists rv rf e.css final_html
  | none => false

/-- Embedding of `judge_final_success(task_spec, final_html, final_url)` from `judge.py`.
`if task_spec.success_criteria:` is Python truthiness: a `None` criteria
field and an empty dict both fall through to the legacy branch. -/
def judge_final_success (rv : String → Bool) (rf : String → String → Bool)
    (spec : TaskSpec) (final_html final_url : String) : Bool :=
  match spec.success_criteria with
  | some c =>
      if !c.isEmpty then judgeCriteria rv rf c final_html final_url
      else judgeLegacyFallback rv rf spec final_html
  | none => judgeLegacyFallback rv rf spec final_html

/-- Embedding of `_actions_roughly_match(executed, gold)` from `judge.py`.
The first test is `executed.get("selector") == gold.get("selector")`
(`None == None` is `True`); the later `.get("selector", "")` defaults are
`Option.getD`. -/
def actions_roughly_match (executed gold : TraceAction) : Bool :=
  if executed.selector == gold.selector then true
  else
    let exec_sel := executed.selector.getD ""
    let gold_sel := gold.selector.getD ""
    if (executed.type == some "click" || executed.type == some "type"
          || executed.type == some "select")
        && (stripWs exec_sel == stripWs gold_sel
            || pyIn exec_sel gold_sel || pyIn gold_sel exec_sel) then
      true
    else if executed.type == some "scroll" then
      (executed.delta_y.getD 0 - gold.delta_y.getD 0).natAbs < 100
    else
      false

/-- Model of `gold_by_step[step] = gold_action`: Python dict assignment keeps the
original position of an existing key and overwrites its value, otherwise
appends. -/
def dictInsert (d : List (Nat × TraceAction)) (k : Nat) (v : TraceAction) :
    List (Nat × TraceAction) :=
  if d.any (fun p => p.1 == k) then
    d.map (fun p => if p.1 == k then (k, v) else p)
  else
    d ++ [(k, v)]

/-- The `for gold_action in gold_actions` loop that builds `gold_by_step`;
a missing `"step"` key defaults to `len(gold_by_step)` at that moment. -/
def buildGoldByStep : List TraceAction → List (Nat × TraceAction) →
    List (Nat × TraceAction)
  | [], d => d
  | g :: rest, d => buildGoldByStep rest (dictInsert d (g.step.getD d.length) g)

/-- Body of the comparison loop of `compute_trace_match` for one
`(step_idx, gold_action)` item: skip when `step_idx` is out of bounds,
require equal `"type"` values, then the rough match. -/
def traceEntryMatches (executed_actions : List TraceAction)
    (p : Nat × TraceAction) : Bool :=
  match executed_actions.get? p.1 with
  | none => false
  | some e => e.type == p.2.type && actions_roughly_match e p.2

/-- Embedding of `compute_trace_match(executed_actions, gold_actions)` from `judge.py`;
the float ratio is represented exactly in `ℚ`, and the Python locals
`gold_by_step` / `total_gold` are inlined. -/
def compute_trace_match (executed_actions gold_actions : List TraceAction) : ℚ :=
  if gold_actions.isEmpty || executed_actions.isEmpty then 0
  else if (buildGoldByStep gold_actions []).length = 0 then 0
  else (((buildGoldByStep gold_actions []).filter
            (traceEntryMatches executed_actions)).length : ℚ)
        / ((buildGoldByStep gold_actions []).length : ℚ)

/-- Embedding of `validate_task_spec(task_spec)` from `judge.py`. Python truthiness of
strings (`not s` iff empty), of the optional `expected` model (truthy iff
present) and of the `success_criteria` dict (truthy iff present and
nonempty) is spelled out; `re.compile` success is `rv`. -/
def validate_task_spec (rv : String → Bool) (spec : TaskSpec) : Bool :=
  if spec.id == "" || spec.start_url == "" || spec.instruction == "" then false
  else
    let branch_ok :=
      match spec.expected with
      | some e =>
          if e.css == "" || e.regex == "" then false
          else rv e.regex
      | none =>
          match spec.success_criteria with
          | some c =>
              if !c.isEmpty then
                c.url_contains.isSome || c.text_present.isSome
                  || c.selector_present.isSome
              else true
          | none => true
    branch_ok && !(spec.limits.max_steps ≤ 0) && !(spec.limits.timeout_sec ≤ 0)

/-! ### `white_agent_client.py` and `action_executor.py` -/

/-- An agent action dict as read by `WhiteAgentClient.validate_action` and
`ActionExecutor.execute_action`: the keys those functions look up, `none`
modelling an absent key. (The `isinstance(action, dict)` guard is
satisfied by construction.) -/
structure WAction where
  type : Option String := none
  selector : Option String := none
  text : Option String := none
  value : Option String := none
  delta_y : Option Int := none
  ms : Option Int := none
  reason : Option String := none
  press_enter : Option Bool := none
deriving DecidableEq, Repr

/-- The closed action vocabulary (`allowed_types`). -/
def allowedTypes : List String :=
  ["click", "type", "select", "scroll", "wait", "stop"]

/-- Embedding of `WhiteAgentClient.validate_action(action)`: `(is_valid, error_message)`.
`if not action_type` is Python truthiness, so an empty-string type is also
"missing". -/
def validate_action (a : WAction) : Bool × Option String :=
  match a.type with
  | none => (false, some "Action missing type field")
  | some t =>
      if t == "" then (false, some "Action missing type field")
      else if !allowedTypes.contains t then
        (false, some ("Invalid action type " ++ t))
      else if t == "click" then
        if a.selector.isNone then (false, some "Click action missing selector field")
        else (true, none)
      else if t == "type" then
        if a.selector.isNone then (false, some "Type action missing selector field")
        else if a.text.isNone then (false, some "Type action missing text field")
        else (true, none)
      else if t == "select" then
        if a.selector.isNone then (false, some "Select action missing selector field")
        else if a.value.isNone then (false, some "Select action missing value field")
        else (true, none)
      else if t == "scroll" then
        if a.delta_y.isNone then (false, some "Scroll action missing delta_y field")
        else (true, none)
      else if t == "wait" then
        if a.ms.isNone then (false, some "Wait action missing ms field")
        else (true, none)
      else if t == "stop" then
        if a.reason.isNone then (false, some "Stop action missing reason field")
        else (true, none)
      else (true, none)

/-- Value `action.get("delta_y", 0)` in the executor's `scroll` branch. -/
def executorScrollDelta (a : WAction) : Int := a.delta_y.getD 0

/-- Value `action.get("ms", 500)` in the executor's `wait` branch. -/
def executorWaitMs (a : WAction) : Int := a.ms.getD 500

/-- Value `action.get("reason", "done")` in the executor's `stop` branch. -/
def executorStopReason (a : WAction) : String := a.reason.getD "done"

/-- Predicate for whether `ActionExecutor.execute_action` reaches its final `else` (the
`"Unknown action type"` error) iff the `"type"` value is none of the six
dispatched literals. -/
def executorUnknownBranch (a : WAction) : Bool :=
  match a.type with
  | some t => !allowedTypes.contains t
  | none => true

/-! ### The evaluation loop of `TaskController.run_evaluation`
(`controller.py`, lines 255-367)

External effects (browser, HTTP agent, clock, file system) are the loop's
environment: each iteration at a given `step_idx` receives one
`AgentOutcome` describing what the outside world did.  Everything the loop
itself computes (counters, stop flag/reason, the recorded events) is state.
-/

/-- The `execution_result` dict returned by
`ActionExecutor.execute_action` for a non-stop action (its `success` and
`error` entries; the resulting URL is external data the loop only copies). -/
structure ExecResult where
  success : Bool
  error : Option String := none
deriving DecidableEq, Repr

/-- What one loop iteration observes from the outside world:
`obsError` — an exception in the observation section (outer `try`,
before the agent is invoked); `timeout` — `call_agent` raised
`TimeoutError`; `agentError` — `call_agent` (or the inner block) raised
another exception; `respond a exec` — the agent returned `a`, and if `a`
is executed the browser yields `exec`. -/
inductive AgentOutcome where
  | obsError
  | timeout
  | agentError
  | respond (action : WAction) (exec : ExecResult)
deriving DecidableEq, Repr

/-- One record appended by `create_event_record` — `step_idx`, the action,
and the `execution_result` entries the loop itself determines
(`success`, `error`, `stop_reason`); timestamp, observation hash and URL
are external data not modelled. -/
structure EventRecord where
  step_idx : Nat
  action : WAction
  exec_success : Bool
  exec_error : Option String := none
  exec_stop_reason : Option String := none
deriving DecidableEq, Repr

/-- The loop-local variables of `run_evaluation`, plus a ghost counter
`agent_calls` for the number of iterations that actually invoked the
agent. -/
structure LoopState where
  step_idx : Nat := 0
  timeouts : Nat := 0
  invalid_actions : Nat := 0
  stopped : Bool := false
  stop_reason : Option String := none
  events : List EventRecord := []
  executed_count : Nat := 0
  agent_calls : Nat := 0
deriving DecidableEq, Repr

/-- The state at loop entry (`controller.py` lines 206-258). -/
def initLoopState : LoopState := {}

/-- One iteration body of the `while` loop (`controller.py` lines 260-367),
given the environment's outcome for this iteration. -/
def loopStep (maxSteps : Nat) (o : AgentOutcome) (s : LoopState) : LoopState :=
  match o with
  | .obsError =>
      let s' := { s with step_idx := s.step_idx + 1 }
      if maxSteps ≤ s'.step_idx then
        { s' with stopped := true, stop_reason := some "max_steps_reached" }
      else s'
  | .timeout =>
      let s' := { s with agent_calls := s.agent_calls + 1,
                         timeouts := s.timeouts + 1,
                         step_idx := s.step_idx + 1 }
      if 3 ≤ s'.timeouts then
        { s' with stopped := true, stop_reason := some "too_many_timeouts" }
      else s'
  | .agentError =>
      let s' := { s with agent_calls := s.agent_calls + 1,
                         step_idx := s.step_idx + 1 }
      if maxSteps ≤ s'.step_idx then
        { s' with stopped := true, stop_reason := some "max_steps_reached" }
      else s'
  | .respond a exec =>
      let s' := { s with agent_calls := s.agent_calls + 1 }
      if !(validate_action a).1 then
        { s' with invalid_actions := s'.invalid_actions + 1,
                  executed_count := s'.executed_count + 1,
                  events := s'.events
                    ++ [{ step_idx := s.step_idx, action := a,
                          exec_success := false,
                          exec_error := (validate_action a).2 }],
                  step_idx := s'.step_idx + 1 }
      else if a.type == some "stop" then
        { s' with stopped := true,
                  stop_reason := some (a.reason.getD "done"),
                  executed_count := s'.executed_count + 1,
                  events := s'.events
                    ++ [{ step_idx := s.step_idx, action := a,
                          exec_success := true,
                          exec_stop_reason := some (a.reason.getD "done") }] }
      else
        { s' with executed_count := s'.executed_count + 1,
                  events := s'.events
                    ++ [{ step_idx := s.step_idx, action := a,
                          exec_success := exec.success,
                          exec_error := exec.error }],
                  step_idx := s'.step_idx + 1 }

/-- Fuel-indexed unfolding of `while step_idx < limits.max_steps and not
stopped`.  Every continuing iteration increments `step_idx` and the `stop`
iteration exits, so `maxSteps + 1` units of fuel (used by
`run_evaluation`) always reach loop exit. -/
def runLoopAux (env : Nat → AgentOutcome) (maxSteps : Nat) :
    Nat → LoopState → LoopState
  | 0, s => s
  | fuel + 1, s =>
      if s.step_idx < maxSteps ∧ s.stopped = false then
        runLoopAux env maxSteps fuel (loopStep maxSteps (env s.step_idx) s)
      else s

/-- The evaluation loop of `TaskController.run_evaluation`: final loop
state from the initial one. -/
def run_evaluation (env : Nat → AgentOutcome) (maxSteps : Nat) : LoopState :=
  runLoopAux env maxSteps (maxSteps + 1) initLoopState

/-- The `RunMetrics` fields computed from loop state at `controller.py`
lines 390-397 (`final_success`, `trace_match_ratio` and `wall_time_s`
come from external data/the clock and are passed in). -/
structure RunMetricsModel where
  final_success : Bool
  steps_taken : Nat
  trace_match_ratio : Option ℚ
  timeouts : Nat
  invalid_actions : Nat
deriving DecidableEq, Repr

/-- Constructor of `RunMetrics(... steps_taken=step_idx, timeouts=timeouts,
invalid_actions=invalid_actions)` from the final loop state. -/
def mkRunMetrics (s : LoopState) (final_success : Bool)
    (trace_match_ratio : Option ℚ) : RunMetricsModel :=
  { final_success := final_success,
    steps_taken := s.step_idx,
    trace_match_ratio := trace_match_ratio,
    timeouts := s.timeouts,
    invalid_actions := s.invalid_actions }

/-! ### Auxiliary definitions for the proofs -/

/-- Pairs each list element with its index, starting at `n`. -/
def enumFrom {α : Type} : Nat → List α → List (Nat × α)
  | _, [] => []
  | n, a :: t => (n, a) :: enumFrom (n + 1) t

/-- Invariant of the evaluation loop: the ghost agent-call counter stays
within the step budget, and the timeout counter saturates at 3 with the
loop stopped under reason `too_many_timeouts`. -/
def LoopInv (maxSteps : Nat) (s : LoopState) : Prop :=
  s.agent_calls ≤ maxSteps ∧ s.step_idx ≤ maxSteps
    ∧ (s.stopped = false → s.agent_calls ≤ s.step_idx)
    ∧ s.timeouts ≤ 3
    ∧ (s.timeouts = 3 → s.stopped = true ∧ s.stop_reason = some "too_many_timeouts")

/-! ### Helper lemmas -/

theorem runLoopAux_succ (env : Nat → AgentOutcome) (maxSteps fuel : Nat)
    (s : LoopState) :
    runLoopAux env maxSteps (fuel + 1) s
      = if s.step_idx < maxSteps ∧ s.stopped = false then
          runLoopAux env maxSteps fuel (loopStep maxSteps (env s.step_idx) s)
        else s := rfl

theorem runLoopAux_stopped (env : Nat → AgentOutcome) (maxSteps fuel : Nat)
    (s : LoopState) (hs : s.stopped = true) :
    runLoopAux env maxSteps fuel s = s := by
  cases fuel with
  | zero => rfl
  | succ f => simp [runLoopAux, hs]

theorem loopStep_inv (maxSteps : Nat) (o : AgentOutcome) (s : LoopState)
    (hinv : LoopInv maxSteps s) (hstep : s.step_idx < maxSteps)
    (hrun : s.stopped = false) :
    LoopInv maxSteps (loopStep maxSteps o s) := by
  obtain ⟨hc, hs, hcs, ht, ht3⟩ := hinv
  have hcall : s.agent_calls ≤ s.step_idx := hcs hrun
  have htlt : s.timeouts < 3 := by
    rcases Nat.lt_or_ge s.timeouts 3 with h | h
    · exact h
    · have h1 := (ht3 (Nat.le_antisymm ht h)).1
      rw [hrun] at h1
      exact absurd h1 (by simp)
  unfold LoopInv
  cases o with
  | obsError =>
      simp only [loopStep]
      split_ifs with h <;> dsimp only
      · exact ⟨hc, by omega, fun hco => absurd hco (by simp), ht,
          fun h3 => absurd h3 (by omega)⟩
      · exact ⟨hc, by omega, fun _ => by omega, ht,
          fun h3 => absurd h3 (by omega)⟩
  | timeout =>
      simp only [loopStep]
      split_ifs with h <;> dsimp only
      · exact ⟨by omega, by omega, fun hco => absurd hco (by simp), by omega,
          fun _ => ⟨rfl, rfl⟩⟩
      · exact ⟨by omega, by omega, fun _ => by omega, by omega,
          fun h3 => absurd h3 (by omega)⟩
  | agentError =>
      simp only [loopStep]
      split_ifs with h <;> dsimp only
      · exact ⟨by omega, by omega, fun hco => absurd hco (by simp), ht,
          fun h3 => absurd h3 (by omega)⟩
      · exact ⟨by omega, by omega, fun _ => by omega, ht,
          fun h3 => absurd h3 (by omega)⟩
  | respond a exec =>
      simp only [loopStep]
      split_ifs with h1 h2 <;> dsimp only
      · exact ⟨by omega, by omega, fun _ => by omega, ht,
          fun h3 => absurd h3 (by omega)⟩
      · exact ⟨by omega, hs, fun hco => absurd hco (by simp), ht,
          fun h3 => absurd h3 (by omega)⟩
      · exact ⟨by omega, by omega, fun _ => by omega, ht,
          fun h3 => absurd h3 (by omega)⟩

theorem runLoopAux_inv (env : Nat → AgentOutcome) (maxSteps fuel : Nat)
    (s : LoopState) (hinv : LoopInv maxSteps s) :
    LoopInv maxSteps (runLoopAux env maxSteps fuel s) := by
  induction fuel generalizing s with
  | zero => exact hinv
  | succ f ih =>
      rw [runLoopAux_succ]
      split
      · next h => exact ih _ (loopStep_inv maxSteps _ s hinv h.1 h.2)
      · exact hinv

/-! ### Claim C1 -/

/-- Claim C1, counterexample: with `success_criteria` absent and the legacy
pair present, `judge_final_success` returns `true` on a final URL whose
domain differs from the start URL domain (and with a regex that matches
nothing, since `rf` is constantly false), so the legacy fallback is not
the conjunction of the three checks. -/
theorem C1_counterexample :
    judge_final_success (fun _ => true) (fun _ _ => false)
        { id := "t1", start_url := "http://good.example", instruction := "go",
          expected := some { css := "#x", regex := "zzz" } }
        "<p id=\"x\"></p>" "http://evil.example" = true
      ∧ check_domain_match "http://good.example" "http://evil.example" = false := by
  exact ⟨by decide, by decide⟩

/-- Claim C1 (amended): for every TaskSpec whose `success_criteria` is
absent and whose legacy expected pair is present, `judge_final_success`
returns exactly the CSS-selector existence check on the final HTML; the
regex and the start/final URL domains are not consulted. -/
theorem C1_legacy_fallback_checks_css_only
    (rv : String → Bool) (rf : String → String → Bool) (spec : TaskSpec)
    (final_html final_url : String) (e : TaskExpected)
    (hsc : spec.success_criteria = none) (he : spec.expected = some e) :
    judge_final_success rv rf spec final_html final_url
      = check_css_selector_exists rv rf e.css final_html := by
  simp [judge_final_success, hsc, judgeLegacyFallback, he]

/-- Claim C1, witness for the amended theorem at a concrete TaskSpec. -/
theorem C1_witness :
    judge_final_success (fun _ => true) (fun _ _ => false)
        { id := "w1", start_url := "http://a.example", instruction := "go",
          expected := some { css := "#y", regex := "r" } }
        "<div id=\"y\"></div>" "http://b.example"
      = check_css_selector_exists (fun _ => true) (fun _ _ => false) "#y"
          "<div id=\"y\"></div>" :=
  C1_legacy_fallback_checks_css_only (fun _ => true) (fun _ _ => false)
    { id := "w1", start_url := "http://a.example", instruction := "go",
      expected := some { css := "#y", regex := "r" } }
    "<div id=\"y\"></div>" "http://b.example" { css := "#y", regex := "r" }
    rfl rfl

/-! ### Claim C2 -/

/-- Claim C2, counterexample: a TaskSpec whose `success_criteria` is the
empty map but which also carries a legacy expected pair whose CSS selector
occurs in the final HTML makes `judge_final_success` return `true` (the
empty dict is Python-falsy and falls through to the legacy branch), so
the judge does not return `false` regardless of the legacy pair. -/
theorem C2_counterexample :
    judge_final_success (fun _ => true) (fun _ _ => false)
        { id := "t2", start_url := "http://good.example", instruction := "go",
          expected := some { css := "#x", regex := "zzz" },
          success_criteria := some {} }
        "<p id=\"x\"></p>" "http://anywhere.example" = true := by
  decide

/-- Claim C2 (amended): for every TaskSpec whose `success_criteria` is the
empty map, `judge_final_success` behaves exactly like the legacy fallback:
it returns the CSS existence check of the `expected` pair when one is
present, and `false` when the TaskSpec carries no legacy pair. -/
theorem C2_empty_criteria_falls_back_to_legacy
    (rv : String → Bool) (rf : String → String → Bool) (spec : TaskSpec)
    (final_html final_url : String) (c : SuccessCriteria)
    (hsc : spec.success_criteria = some c) (hempty : c.isEmpty = true) :
    judge_final_success rv rf spec final_html final_url
        = judgeLegacyFallback rv rf spec final_html
      ∧ (spec.expected = none →
          judge_final_success rv rf spec final_html final_url = false) := by
  have h : judge_final_success rv rf spec final_html final_url
      = judgeLegacyFallback rv rf spec final_html := by
    simp [judge_final_success, hsc, hempty]
  refine ⟨h, fun hexp => ?_⟩
  rw [h]
  simp [judgeLegacyFallback, hexp]

/-- Claim C2, witness for the amended theorem at a concrete TaskSpec with
an empty criteria map and no legacy pair. -/
theorem C2_witness :
    judge_final_success (fun _ => true) (fun _ _ => false)
        { id := "w2", start_url := "http://a.example", instruction := "go",
          success_criteria := some {} }
        "<p></p>" "http://a.example" = false :=
  (C2_empty_criteria_falls_back_to_legacy (fun _ => true) (fun _ _ => false)
    { id := "w2", start_url := "http://a.example", instruction := "go",
      success_criteria := some {} }
    "<p></p>" "http://a.example" {} rfl rfl).2 rfl

/-! ### Claim C8 -/

/-- Claim C8, counterexample: a TaskSpec carrying neither the legacy
expected pair nor a `success_criteria` map is accepted by
`validate_task_spec` (both optional fields are skipped and only the
limits are checked), so "exactly one of the two forms must validate" is
not enforced. -/
theorem C8_counterexample :
    validate_task_spec (fun _ => true)
        { id := "t8", start_url := "http://a.example", instruction := "go",
          expected := none, success_criteria := none,
          limits := { max_steps := 5, timeout_sec := 60 } } = true := by
  decide

/-- Claim C8 (amended): `validate_task_spec` accepts only if `id`,
`start_url` and `instruction` are all nonempty and `max_steps` and
`timeout_sec` are strictly positive; when a legacy expected pair is
present it must have nonempty `css`, nonempty `regex` and a compilable
regex; and when no legacy pair is present but a nonempty
`success_criteria` map is, that map must contain a recognized key.  A
TaskSpec carrying neither form (or an empty criteria map, or both forms at
once) is not rejected on that account. -/
theorem C8_validator_necessary_conditions (rv : String → Bool)
    (spec : TaskSpec) (hok : validate_task_spec rv spec = true) :
    (¬spec.id = "" ∧ ¬spec.start_url = "" ∧ ¬spec.instruction = "")
      ∧ (0 < spec.limits.max_steps ∧ 0 < spec.limits.timeout_sec)
      ∧ (∀ e, spec.expected = some e →
          ¬e.css = "" ∧ ¬e.regex = "" ∧ rv e.regex = true)
      ∧ (spec.expected = none → ∀ c, spec.success_criteria = some c →
          c.isEmpty = false →
          (c.url_contains.isSome || c.text_present.isSome
            || c.selector_present.isSome) = true) := by
  unfold validate_task_spec at hok
  split at hok
  · exact absurd hok (by simp)
  · rename_i hne
    have hids : ¬spec.id = "" ∧ ¬spec.start_url = "" ∧ ¬spec.instruction = "" := by
      simpa only [Bool.or_eq_true, beq_iff_eq, not_or, and_assoc] using hne
    simp only [Bool.and_eq_true, Bool.not_eq_true',
      decide_eq_false_iff_not] at hok
    obtain ⟨⟨hbranch, hms⟩, hts⟩ := hok
    refine ⟨hids, ⟨by omega, by omega⟩, ?_, ?_⟩
    · intro e he
      rw [he] at hbranch
      dsimp only at hbranch
      split at hbranch
      · exact absurd hbranch (by simp)
      · next hcond =>
          simp only [Bool.or_eq_true, beq_iff_eq, not_or] at hcond
          exact ⟨hcond.1, hcond.2, hbranch⟩
    · intro hexp c hc hne
      rw [hexp] at hbranch
      rw [hc] at hbranch
      dsimp only at hbranch
      rw [hne] at hbranch
      simpa using hbranch

/-- Claim C8, witness for the amended theorem at a concrete accepted
TaskSpec carrying a legacy pair. -/
theorem C8_witness :
    (¬"w8" = "" ∧ ¬"http://a.example" = "" ∧ ¬"go" = "")
      ∧ (0 < (5 : Int) ∧ 0 < (60 : Int))
      ∧ ¬"#x" = "" ∧ ¬"z+" = "" ∧ (fun _ => true) "z+" = true :=
  have h := C8_validator_necessary_conditions (fun _ => true)
    { id := "w8", start_url := "http://a.example", instruction := "go",
      expected := some { css := "#x", regex := "z+" },
      limits := { max_steps := 5, timeout_sec := 60 } } (by decide)
  ⟨h.1, h.2.1, h.2.2.1 { css := "#x", regex := "z+" } rfl⟩

/-! ### Claim C9 -/

/-- Claim C9: for every TaskSpec whose `success_criteria` contains a
`text_present` key holding a pattern that does not compile (`rv pat =
false`, the model of `re.error`), `judge_final_success` returns `false`
for every final HTML and final URL; the `try/except re.error` inside
`_check_regex_match` converts the invalid pattern into a failed check
instead of an exception. -/
theorem C9_invalid_text_regex_never_succeeds
    (rv : String → Bool) (rf : String → String → Bool) (spec : TaskSpec)
    (final_html final_url : String) (c : SuccessCriteria) (pat : String)
    (hsc : spec.success_criteria = some c) (hp : c.text_present = some pat)
    (hrv : rv pat = false) :
    judge_final_success rv rf spec final_html final_url = false := by
  have hne : c.isEmpty = false := by
    simp [SuccessCriteria.isEmpty, hp]
  simp [judge_final_success, hsc, hne, judgeCriteria, hp,
    check_regex_match, hrv]

/-- Claim C9, witness at a concrete TaskSpec with an invalid
`text_present` pattern. -/
theorem C9_witness :
    judge_final_success (fun _ => false) (fun _ _ => true)
        { id := "w9", start_url := "http://a.example", instruction := "go",
          success_criteria := some { text_present := some "[unclosed" } }
        "<p>anything</p>" "http://a.example" = false :=
  C9_invalid_text_regex_never_succeeds (fun _ => false) (fun _ _ => true)
    { id := "w9", start_url := "http://a.example", instruction := "go",
      success_criteria := some { text_present := some "[unclosed" } }
    "<p>anything</p>" "http://a.example"
    { text_present := some "[unclosed" } "[unclosed" rfl rfl rfl

/-! ### Claim C6 -/

theorem roughly_match_scroll_iff (e g : TraceAction)
    (ht : e.type = some "scroll") :
    actions_roughly_match e g = true ↔
      (e.selector == g.selector) = true
        ∨ (e.delta_y.getD 0 - g.delta_y.getD 0).natAbs < 100 := by
  by_cases hsel : (e.selector == g.selector) = true
  · simp [actions_roughly_match, hsel]
  · simp [actions_roughly_match, ht, hsel]

theorem roughly_match_cts_iff (e g : TraceAction) (t : String)
    (ht : e.type = some t)
    (htt : t = "click" ∨ t = "type" ∨ t = "select") :
    actions_roughly_match e g = true ↔
      e.selector.getD "" = g.selector.getD ""
        ∨ stripWs (e.selector.getD "") = stripWs (g.selector.getD "")
        ∨ pyIn (e.selector.getD "") (g.selector.getD "") = true
        ∨ pyIn (g.selector.getD "") (e.selector.getD "") = true := by
  have main : ∀ u : String, e.type = some u →
      (u = "click" ∨ u = "type" ∨ u = "select") →
      (actions_roughly_match e g = true ↔
        e.selector.getD "" = g.selector.getD ""
          ∨ stripWs (e.selector.getD "") = stripWs (g.selector.getD "")
          ∨ pyIn (e.selector.getD "") (g.selector.getD "") = true
          ∨ pyIn (g.selector.getD "") (e.selector.getD "") = true) := by
    intro u hu huu
    by_cases hsel : (e.selector == g.selector) = true
    · have h2 : e.selector.getD "" = g.selector.getD "" := by
        have h3 : e.selector = g.selector := by simpa using hsel
        rw [h3]
      simp [actions_roughly_match, hsel, h2]
    · rcases huu with rfl | rfl | rfl <;>
        · simp [actions_roughly_match, hu, hsel]
          constructor
          · tauto
          · intro h
            rcases h with h | h | h | h
            · exact Or.inl (Or.inl (by rw [h]))
            · tauto
            · tauto
            · tauto
  exact main t ht htt

/-- Claim C6, counterexample: two scroll actions with no selectors and
delta_y values 500 pixels apart still count as a rough match, because the
initial `executed.get("selector") == gold.get("selector")` test succeeds
on `None == None` before the scroll branch is reached — so "match iff
delta_y within 100" is false. -/
theorem C6_counterexample :
    actions_roughly_match
        { type := some "scroll", delta_y := some 0 }
        { type := some "scroll", delta_y := some 500 } = true
      ∧ ¬((0 : Int) - 500).natAbs < 100 :=
  ⟨by decide, by decide⟩

/-- Claim C6 (amended): at equal positions with equal types, two `scroll`
actions match iff their (optional) selector fields are equal — e.g. both
absent — OR their `delta_y` values differ by strictly less than 100
pixels; `click`/`type`/`select` actions match iff their
defaulted-to-empty selectors are exactly equal, or equal after stripping
all whitespace, or one is a substring of the other. -/
theorem C6_rough_match_characterization :
    (∀ e g : TraceAction, e.type = some "scroll" →
      (actions_roughly_match e g = true ↔
        (e.selector == g.selector) = true
          ∨ (e.delta_y.getD 0 - g.delta_y.getD 0).natAbs < 100))
    ∧ (∀ (e g : TraceAction) (t : String), e.type = some t →
        t = "click" ∨ t = "type" ∨ t = "select" →
        (actions_roughly_match e g = true ↔
          e.selector.getD "" = g.selector.getD ""
            ∨ stripWs (e.selector.getD "") = stripWs (g.selector.getD "")
            ∨ pyIn (e.selector.getD "") (g.selector.getD "") = true
            ∨ pyIn (g.selector.getD "") (e.selector.getD "") = true)) :=
  ⟨fun e g ht => roughly_match_scroll_iff e g ht,
   fun e g t ht htt => roughly_match_cts_iff e g t ht htt⟩

/-- Claim C6, witness: the characterization applied to one concrete
scroll pair and one concrete click pair. -/
theorem C6_witness :
    (actions_roughly_match { type := some "scroll", delta_y := some 10 }
        { type := some "scroll", delta_y := some 40 } = true ↔
      ((none : Option String) == (none : Option String)) = true
        ∨ ((10 : Int) - 40).natAbs < 100)
    ∧ (actions_roughly_match { type := some "click", selector := some "#a" }
        { type := some "click", selector := some "#a b" } = true ↔
      "#a" = "#a b" ∨ stripWs "#a" = stripWs "#a b"
        ∨ pyIn "#a" "#a b" = true ∨ pyIn "#a b" "#a" = true) :=
  ⟨C6_rough_match_characterization.1
      { type := some "scroll", delta_y := some 10 }
      { type := some "scroll", delta_y := some 40 } rfl,
   C6_rough_match_characterization.2
      { type := some "click", selector := some "#a" }
      { type := some "click", selector := some "#a b" } "click" rfl
      (Or.inl rfl)⟩

/-! ### Claim C10 -/

/-- Claim C10: `validate_action` is stricter than the spec's action
vocabulary — it rejects a `scroll` action missing `delta_y`, a `wait`
action missing `ms`, and a `stop` action missing `reason`; consequently
for every action that passes validation the executor's field defaults
(`delta_y` 0, `ms` 500, `reason` "done") are never consulted (the looked
up key is present and its value is returned) and the executor's
"unknown action type" branch is unreachable. -/
theorem C10_validator_makes_executor_defaults_unreachable (a : WAction) :
    ((a.type = some "scroll" ∧ a.delta_y = none) →
        (validate_action a).1 = false)
      ∧ ((a.type = some "wait" ∧ a.ms = none) →
          (validate_action a).1 = false)
      ∧ ((a.type = some "stop" ∧ a.reason = none) →
          (validate_action a).1 = false)
      ∧ ((validate_action a).1 = true →
          (a.type = some "scroll" →
            ∃ d, a.delta_y = some d ∧ executorScrollDelta a = d)
          ∧ (a.type = some "wait" →
              ∃ m, a.ms = some m ∧ executorWaitMs a = m)
          ∧ (a.type = some "stop" →
              ∃ r, a.reason = some r ∧ executorStopReason a = r)
          ∧ executorUnknownBranch a = false) := by
  refine ⟨?_, ?_, ?_, ?_⟩
  · intro h
    simp [validate_action, allowedTypes, h.1, h.2]
  · intro h
    simp [validate_action, allowedTypes, h.1, h.2]
  · intro h
    simp [validate_action, allowedTypes, h.1, h.2]
  · intro hv
    refine ⟨?_, ?_, ?_, ?_⟩
    · intro ht
      cases hdy : a.delta_y with
      | none => simp [validate_action, allowedTypes, ht, hdy] at hv
      | some d => exact ⟨d, rfl, by simp [executorScrollDelta, hdy]⟩
    · intro ht
      cases hms : a.ms with
      | none => simp [validate_action, allowedTypes, ht, hms] at hv
      | some m => exact ⟨m, rfl, by simp [executorWaitMs, hms]⟩
    · intro ht
      cases hr : a.reason with
      | none => simp [validate_action, allowedTypes, ht, hr] at hv
      | some r => exact ⟨r, rfl, by simp [executorStopReason, hr]⟩
    · cases hty : a.type with
      | none => simp [validate_action, hty] at hv
      | some t =>
          by_cases hts : t = ""
          · simp [validate_action, hty, hts] at hv
          · by_cases hc : t ∈ allowedTypes
            · simp [executorUnknownBranch, hty, hc]
            · simp [validate_action, hty, hts, hc] at hv

/-- Claim C10, witness: the rejection part at a concrete selector-less
scroll action, and the unreachability part at a concrete valid wait
action. -/
theorem C10_witness :
    (validate_action { type := some "scroll" }).1 = false
      ∧ ∃ m, ({ type := some "wait", ms := some 250 } : WAction).ms = some m
          ∧ executorWaitMs { type := some "wait", ms := some 250 } = m :=
  ⟨(C10_validator_makes_executor_defaults_unreachable
      { type := some "scroll" }).1 ⟨rfl, rfl⟩,
   ((C10_validator_makes_executor_defaults_unreachable
      { type := some "wait", ms := some 250 }).2.2.2 (by decide)).2.1 rfl⟩

/-! ### Claims C5 and C7: the trace matcher -/

theorem enumFrom_length {α : Type} (l : List α) :
    ∀ n, (enumFrom n l).length = l.length := by
  induction l with
  | nil => intro n; rfl
  | cons a t ih => intro n; simp [enumFrom, ih]

theorem mem_enumFrom {α : Type} (l : List α) : ∀ (n : Nat) (p : Nat × α),
    p ∈ enumFrom n l →
    n ≤ p.1 ∧ p.1 - n < l.length ∧ l.get? (p.1 - n) = some p.2 := by
  induction l with
  | nil => intro n p hp; simp [enumFrom] at hp
  | cons a t ih =>
      intro n p hp
      rcases List.mem_cons.mp hp with rfl | hp'
      · exact ⟨Nat.le_refl n, by simp, by simp⟩
      · obtain ⟨h1, h2, h3⟩ := ih (n + 1) p hp'
        refine ⟨by omega, by simp; omega, ?_⟩
        have hk : p.1 - n = (p.1 - (n + 1)) + 1 := by omega
        rw [hk]
        simpa using h3

theorem buildGoldByStep_stepless :
    ∀ (l : List TraceAction) (d : List (Nat × TraceAction)),
    (∀ x ∈ l, x.step = none) → (∀ p ∈ d, p.1 < d.length) →
    buildGoldByStep l d = d ++ enumFrom d.length l := by
  intro l
  induction l with
  | nil => intro d _ _; simp [buildGoldByStep, enumFrom]
  | cons g t ih =>
      intro d hsteps hkeys
      have hg : g.step = none := hsteps g (List.mem_cons_self g t)
      have hany : d.any (fun p => p.1 == d.length) = false := by
        rw [List.any_eq_false]
        intro p hp
        simp only [beq_iff_eq]
        exact Nat.ne_of_lt (hkeys p hp)
      have hins : dictInsert d d.length g = d ++ [(d.length, g)] := by
        simp [dictInsert, hany]
      have hstep : buildGoldByStep (g :: t) d
          = buildGoldByStep t (d ++ [(d.length, g)]) := by
        simp [buildGoldByStep, hg, hins]
      rw [hstep]
      have hkeys' : ∀ p ∈ d ++ [(d.length, g)],
          p.1 < (d ++ [(d.length, g)]).length := by
        intro p hp
        rcases List.mem_append.mp hp with h | h
        · have := hkeys p h
          simp
          omega
        · simp at h
          subst h
          simp
      rw [ih _ (fun x hx => hsteps x (List.mem_cons_of_mem _ hx)) hkeys']
      simp [enumFrom, List.append_assoc]

/-- Claim C5, counterexample: the executed list is literally identical to
the gold list (same types and selectors at every position), yet the score
is 0, not 1: the single gold action carries an explicit `step` field of 5,
so it is keyed at index 5, which is outside the executed list's bounds
and is skipped by the comparison loop. -/
theorem C5_counterexample :
    compute_trace_match
        [{ type := some "click", selector := some "#a", step := some 5 }]
        [{ type := some "click", selector := some "#a", step := some 5 }]
      = 0 := by
  simp [compute_trace_match, buildGoldByStep, dictInsert, traceEntryMatches]

/-- Claim C5 (amended): for every nonempty gold action list in which no
action carries an explicit `step` field (so every gold action is keyed by
its position), an executed list element-for-element identical to gold
scores exactly 1. -/
theorem C5_identical_trace_scores_one (gold : List TraceAction)
    (hne : gold ≠ []) (hsteps : ∀ g ∈ gold, g.step = none) :
    compute_trace_match gold gold = 1 := by
  have hie : gold.isEmpty = false := by
    cases gold with
    | nil => exact absurd rfl hne
    | cons a t => rfl
  have hlen0 : gold.length ≠ 0 := by
    cases gold with
    | nil => exact absurd rfl hne
    | cons a t => simp
  have hgbs : buildGoldByStep gold [] = enumFrom 0 gold := by
    simpa using buildGoldByStep_stepless gold [] hsteps (by simp)
  have hfilter : (enumFrom 0 gold).filter (traceEntryMatches gold)
      = enumFrom 0 gold := by
    apply List.filter_eq_self.mpr
    intro p hp
    obtain ⟨_, hlt, hget⟩ := mem_enumFrom gold 0 p hp
    simp only [Nat.sub_zero] at hlt hget
    unfold traceEntryMatches
    rw [hget]
    simp [actions_roughly_match]
  unfold compute_trace_match
  rw [hie, hgbs, hfilter, enumFrom_length]
  rw [if_neg (by simp), if_neg hlen0]
  exact div_self (by exact_mod_cast hlen0)

/-- Claim C5, witness: a concrete identical step-free pair scores 1. -/
theorem C5_witness :
    compute_trace_match [{ type := some "click", selector := some "#a" }]
      [{ type := some "click", selector := some "#a" }] = 1 :=
  C5_identical_trace_scores_one
    [{ type := some "click", selector := some "#a" }] (by simp) (by simp)

/-- Claim C7: `compute_trace_match` returns 0 whenever either input list
is empty; it is deterministic (equal inputs give equal results); and its
result always lies in the closed interval [0, 1]. -/
theorem C7_trace_match_empty_bounded_deterministic :
    (∀ e g : List TraceAction, e = [] ∨ g = [] →
      compute_trace_match e g = 0)
    ∧ (∀ e g : List TraceAction,
        0 ≤ compute_trace_match e g ∧ compute_trace_match e g ≤ 1)
    ∧ (∀ e g e2 g2 : List TraceAction, e = e2 → g = g2 →
        compute_trace_match e g = compute_trace_match e2 g2) := by
  refine ⟨?_, ?_, ?_⟩
  · intro e g h
    rcases h with rfl | rfl <;> simp [compute_trace_match]
  · intro e g
    unfold compute_trace_match
    split_ifs with h1 h2
    · norm_num
    · norm_num
    · constructor
      · apply div_nonneg <;> exact_mod_cast Nat.zero_le _
      · rw [div_le_one (by exact_mod_cast Nat.pos_of_ne_zero h2)]
        exact_mod_cast List.length_filter_le _ _
  · intro e g e2 g2 h1 h2
    rw [h1, h2]

/-- Claim C7, witness: the empty-list clause at a concrete input. -/
theorem C7_witness :
    compute_trace_match [] [{ type := some "wait" }] = 0 :=
  C7_trace_match_empty_bounded_deterministic.1 [] [{ type := some "wait" }]
    (Or.inl rfl)

/-! ### Claim C3 -/

/-- Claim C3: over every environment and step budget, the evaluation loop
invokes the agent at most `max_steps` times, accumulates at most 3
timeouts, and whenever the cumulative timeout count reaches exactly 3 the
loop has stopped with stop reason `too_many_timeouts` (each timeout
increments the counter and advances `step_idx`, both reflected in
`loopStep`). -/
theorem C3_step_budget_and_timeout_stop (env : Nat → AgentOutcome)
    (maxSteps : Nat) :
    (run_evaluation env maxSteps).agent_calls ≤ maxSteps
      ∧ (run_evaluation env maxSteps).timeouts ≤ 3
      ∧ ((run_evaluation env maxSteps).timeouts = 3 →
          (run_evaluation env maxSteps).stopped = true
            ∧ (run_evaluation env maxSteps).stop_reason
                = some "too_many_timeouts") := by
  have hinit : LoopInv maxSteps initLoopState :=
    ⟨Nat.zero_le _, Nat.zero_le _, fun _ => Nat.le_refl _, by decide,
     fun h => absurd h (by decide)⟩
  have h := runLoopAux_inv env maxSteps (maxSteps + 1) initLoopState hinit
  exact ⟨h.1, h.2.2.2.1, h.2.2.2.2⟩

/-- Claim C3, witness: with an agent that always times out and a step
budget of 10, the loop stops after exactly 3 timeouts with reason
`too_many_timeouts` while `step_idx` (3) is still below `max_steps`. -/
theorem C3_witness :
    (run_evaluation (fun _ => AgentOutcome.timeout) 10).timeouts = 3
      ∧ (run_evaluation (fun _ => AgentOutcome.timeout) 10).stopped = true
      ∧ (run_evaluation (fun _ => AgentOutcome.timeout) 10).stop_reason
          = some "too_many_timeouts"
      ∧ (run_evaluation (fun _ => AgentOutcome.timeout) 10).step_idx < 10 := by
  have h := (C3_step_budget_and_timeout_stop
    (fun _ => AgentOutcome.timeout) 10).2.2 (by decide)
  exact ⟨by decide, h.1, h.2, by decide⟩

/-! ### Claim C4 -/

/-- Claim C4: if the agent returns a valid `stop` action at step 0, the
loop terminates immediately with exactly one recorded event, whose
execution result has `success = true` and carries the stop reason; the
timeout and invalid-action counters are both 0; and the fixed convention
is that `RunMetrics.steps_taken` equals 0 (the `stop` branch breaks out of
the loop without incrementing `step_idx`, and `steps_taken` is set from
`step_idx`). -/
theorem C4_stop_at_step_zero (env : Nat → AgentOutcome) (maxSteps : Nat)
    (a : WAction) (exec : ExecResult) (hpos : 0 < maxSteps)
    (henv : env 0 = AgentOutcome.respond a exec)
    (hval : (validate_action a).1 = true) (htype : a.type = some "stop") :
    (run_evaluation env maxSteps).events
        = [{ step_idx := 0, action := a, exec_success := true,
             exec_error := none,
             exec_stop_reason := some (a.reason.getD "done") }]
      ∧ (run_evaluation env maxSteps).timeouts = 0
      ∧ (run_evaluation env maxSteps).invalid_actions = 0
      ∧ (run_evaluation env maxSteps).stopped = true
      ∧ (run_evaluation env maxSteps).stop_reason = some (a.reason.getD "done")
      ∧ ∀ (fs : Bool) (tr : Option ℚ),
          (mkRunMetrics (run_evaluation env maxSteps) fs tr).steps_taken = 0 := by
  have hs1 : loopStep maxSteps (env 0) initLoopState
      = { step_idx := 0, timeouts := 0, invalid_actions := 0, stopped := true,
          stop_reason := some (a.reason.getD "done"),
          events := [{ step_idx := 0, action := a, exec_success := true,
                       exec_error := none,
                       exec_stop_reason := some (a.reason.getD "done") }],
          executed_count := 1, agent_calls := 1 } := by
    rw [henv]
    simp [loopStep, hval, htype, initLoopState]
  have hrun : run_evaluation env maxSteps
      = loopStep maxSteps (env 0) initLoopState := by
    unfold run_evaluation
    rw [runLoopAux_succ]
    rw [if_pos ⟨hpos, rfl⟩]
    have hs1' : loopStep maxSteps (env initLoopState.step_idx) initLoopState
        = { step_idx := 0, timeouts := 0, invalid_actions := 0, stopped := true,
            stop_reason := some (a.reason.getD "done"),
            events := [{ step_idx := 0, action := a, exec_success := true,
                         exec_error := none,
                         exec_stop_reason := some (a.reason.getD "done") }],
            executed_count := 1, agent_calls := 1 } := hs1
    rw [hs1']
    rw [runLoopAux_stopped env maxSteps maxSteps _ rfl]
    exact hs1.symm
  rw [hrun, hs1]
  exact ⟨rfl, rfl, rfl, rfl, rfl, fun fs tr => rfl⟩

/-- Claim C4, witness: a concrete agent that immediately returns a valid
stop action with reason "finished" under a budget of 5 steps. -/
theorem C4_witness :
    (run_evaluation
        (fun _ => AgentOutcome.respond
          { type := some "stop", reason := some "finished" } { success := true })
        5).events
      = [{ step_idx := 0,
           action := { type := some "stop", reason := some "finished" },
           exec_success := true, exec_error := none,
           exec_stop_reason := some "finished" }]
      ∧ (run_evaluation
          (fun _ => AgentOutcome.respond
            { type := some "stop", reason := some "finished" } { success := true })
          5).timeouts = 0
      ∧ (run_evaluation
          (fun _ => AgentOutcome.respond
            { type := some "stop", reason := some "finished" } { success := true })
          5).invalid_actions = 0
      ∧ (mkRunMetrics
          (run_evaluation
            (fun _ => AgentOutcome.respond
              { type := some "stop", reason := some "finished" } { success := true })
            5) true none).steps_taken = 0 := by
  have h := C4_stop_at_step_zero
    (fun _ => AgentOutcome.respond
      { type := some "stop", reason := some "finished" } { success := true })
    5 { type := some "stop", reason := some "finished" } { success := true }
    (by decide) rfl (by decide) rfl
  exact ⟨h.1, h.2.1, h.2.2.1, h.2.2.2.2.2 true none⟩

end WebNav
